import Mathlib

/-!
Shallow embedding of the DRM/KMS display backend in
minui/graphics_drm.cpp (AOSPA android_bootable_recovery), together with
theorems checking the natural-language specification against it.

Machine integers are modelled as Nat (all the quantities involved --
ids, widths, plane counts, counters -- are small and non-negative in the
source), except syscall return codes which are Int (the source compares
them against 0 and negative errno values).
-/

namespace GraphicsDrm

/-- Character-list test: does the second list start with the first.
Used to model C `strcmp`-style matching and `std::string::find`. -/
def leadsWith : List Char → List Char → Bool
  | [], _ => true
  | _ :: _, [] => false
  | a :: as, b :: bs => a == b && leadsWith as bs

/-- Model of `std::string::find(needle) != npos`: the needle occurs as a
contiguous substring of the haystack (character-list form). -/
def listHasSub (needle : List Char) : List Char → Bool
  | [] => needle.isEmpty
  | c :: cs => leadsWith needle (c :: cs) || listHasSub needle cs

/-- `hay.find(needle) != std::string::npos` on strings. -/
def strHasSub (hay needle : String) : Bool := listHasSub needle.data hay.data

/-- Model of `get_lm_number` (graphics_drm.cpp lines 98-108): maps a
topology name string to a layer-mixer count, defaulting to 2. -/
def get_lm_number (topology : String) : Nat :=
  if topology = "sde_singlepipe" then 1
  else if topology = "sde_singlepipe_dsc" then 1
  else if topology = "sde_dualpipe" then 2
  else if topology = "sde_dualpipe_dsc" then 2
  else if topology = "sde_dualpipemerge" then 2
  else if topology = "sde_dualpipemerge_dsc" then 2
  else if topology = "sde_dualpipe_dscmerge" then 2
  else if topology = "sde_ppsplit" then 1
  else 2

/-- Loop body of `get_topology_lm_number` (graphics_drm.cpp lines
123-127): a line containing "topology=" anywhere
(`line.find(topology) != npos`) overwrites `num_lm` with `get_lm_number`
applied to the line minus its first `topology.length()` characters
(`std::string(line, topology.length())`); other lines leave it alone. -/
def topologyScanStep (num_lm : Nat) (line : String) : Nat :=
  if strHasSub line "topology=" then
    get_lm_number (line.drop ("topology=").length)
  else num_lm

/-- Model of `get_topology_lm_number` (graphics_drm.cpp lines 110-131).
The blob argument is `none` when `drmModeGetPropertyBlob` returns null,
otherwise the blob text split into its newline-separated lines (the
`std::getline` loop); the loop body is folded over those lines with
`num_lm` starting at 2. -/
def get_topology_lm_number (blob : Option (List String)) : Nat :=
  match blob with
  | none => 2
  | some lines => lines.foldl topologyScanStep 2

/-- A cached kernel property record: name and kernel-assigned id
(one entry of `props_info` in the source structs). -/
structure PropInfo where
  name : String
  prop_id : Nat
deriving DecidableEq

/-- Model of the `find_prop_id` macro (graphics_drm.cpp lines 62-78) for
CRTC/Connector objects.  `res` is the `_res` argument (`none` models a
null pointer); `main_obj_id` is `main_monitor_<type>-><type>_id`, the
main monitor's object id of the same kind; `obj_id` is the queried id.
If the object is null or the queried id differs from the main monitor's
id, the sentinel 0 is produced without scanning the property list;
otherwise the list is scanned for the first exact name match. -/
def find_prop_id (res : Option (List PropInfo)) (main_obj_id : Nat)
    (obj_id : Nat) (prop_name : String) : Nat :=
  match res with
  | none => 0
  | some props_info =>
    if main_obj_id ≠ obj_id then 0
    else
      match props_info.find? (fun p => p.name = prop_name) with
      | some p => p.prop_id
      | none => 0

/-- Modelled from the spec: the `Left` plane-position enum constant used
by `AtomicPopulatePlane` comes from minui/minui.h, which is not in the
sources; the spec fixes plane 0 as the left/first sub-rectangle
("plane 0 gets the left/first sub-rectangle"), so `Left = 0`. -/
def Left : Nat := 0

/-- The source/destination rectangle a plane is assigned by
`AtomicPopulatePlane`.  The source fields are the pixel values before the
`<< 16` fixed-point shift applied to the SRC_* property values. -/
structure PlaneRect where
  src_x : Nat
  src_y : Nat
  src_w : Nat
  src_h : Nat
  crtc_x : Nat
  crtc_y : Nat
  crtc_w : Nat
  crtc_h : Nat
deriving DecidableEq

/-- Model of the rectangle computation of
`MinuiBackendDrm::AtomicPopulatePlane` (graphics_drm.cpp lines 176-240):
`width`/`height` are the main CRTC mode's hdisplay/vdisplay,
`number_of_lms` the active plane count, `plane` the plane index.
Division is C integer division on non-negative values. -/
def AtomicPopulatePlane (width height number_of_lms plane : Nat) : PlaneRect :=
  if plane = Left then
    { src_x := 0, src_y := 0
      src_w := width / number_of_lms, src_h := height
      crtc_x := 0, crtc_y := 0
      crtc_w := width / number_of_lms, crtc_h := height }
  else
    { src_x := width / number_of_lms, src_y := 0
      src_w := width / number_of_lms, src_h := height
      crtc_x := width / number_of_lms, crtc_y := 0
      crtc_w := width / number_of_lms, crtc_h := height }

/-- The plane rectangles populated by the loop in
`MinuiBackendDrm::SetupPipeline` (graphics_drm.cpp lines 284-290):
`AtomicPopulatePlane i` for every `i < number_of_lms`. -/
def SetupPipelineRects (width height number_of_lms : Nat) : List PlaneRect :=
  (List.range number_of_lms).map (fun i => AtomicPopulatePlane width height number_of_lms i)

/-- Plane rectangle `r` covers horizontal pixel column `x` of the CRTC. -/
def coversX (r : PlaneRect) (x : Nat) : Prop :=
  r.crtc_x ≤ x ∧ x < r.crtc_x + r.crtc_w

instance (r : PlaneRect) (x : Nat) : Decidable (coversX r x) :=
  inferInstanceAs (Decidable (r.crtc_x ≤ x ∧ x < r.crtc_x + r.crtc_w))

/-- Outcomes of the external calls `MinuiBackendDrm::Blank` makes:
whether `drmModeAtomicAlloc` returns non-null, the return value of the
request-construction call (`DrmDisableCrtc`/`DrmEnableCrtc`), and the
return value of `drmModeAtomicCommit`. -/
structure BlankEnv where
  alloc_ok : Bool
  construct_ret : Int
  commit_ret : Int
deriving DecidableEq

/-- Observable outcome of one `Blank` call: the tracked
`current_blank_state` afterwards, how many atomic requests were
allocated (calls to `drmModeAtomicAlloc`), how many commits were issued
(calls to `drmModeAtomicCommit`), and how many times the
"Atomic Commit failed" message was printed. -/
structure BlankOut where
  state : Bool
  alloc_calls : Nat
  commit_calls : Nat
  fail_logs : Nat
deriving DecidableEq

/-- Model of `MinuiBackendDrm::Blank` (graphics_drm.cpp lines 299-325).
Control flow of the source: return immediately if `blank` equals
`current_blank_state`; allocate a request (return if that fails);
construct teardown or setup into it; commit only if construction
returned 0; then `if (!ret)` print "Atomic Commit failed, rc = %d" and
set `current_blank_state = blank` -- note the source runs that branch
when the final `ret` is ZERO. -/
def Blank (blank current_blank_state : Bool) (e : BlankEnv) : BlankOut :=
  if blank = current_blank_state then
    { state := current_blank_state, alloc_calls := 0, commit_calls := 0, fail_logs := 0 }
  else if e.alloc_ok = false then
    { state := current_blank_state, alloc_calls := 1, commit_calls := 0, fail_logs := 0 }
  else if e.construct_ret = 0 then
    if e.commit_ret = 0 then
      { state := blank, alloc_calls := 1, commit_calls := 1, fail_logs := 1 }
    else
      { state := current_blank_state, alloc_calls := 1, commit_calls := 1, fail_logs := 0 }
  else
    { state := current_blank_state, alloc_calls := 1, commit_calls := 0, fail_logs := 0 }

/-- Observable outcome of one `MinuiBackendDrm::Flip` call: the index of
the buffer whose fb id `UpdatePlaneFB` just committed for display, and
the index of the surface returned to the caller (which is also the new
`current_buffer`). -/
structure FlipOut where
  committed : Nat
  returned : Nat
deriving DecidableEq

/-- Model of `MinuiBackendDrm::Flip` (graphics_drm.cpp lines 765-770):
`UpdatePlaneFB` commits `GRSurfaceDrms[current_buffer]->fb_id`
(lines 578-580), then `current_buffer = 1 - current_buffer` and
`GRSurfaceDrms[current_buffer]` is returned. -/
def Flip (current_buffer : Nat) : FlipOut :=
  { committed := current_buffer, returned := 1 - current_buffer }

/-- One property addition recorded in an atomic request:
(target object id, property id, value), as passed to
`drmModeAtomicAddProperty`. -/
structure AtomicAdd where
  obj_id : Nat
  prop_id : Nat
  value : Nat
deriving DecidableEq

/-- Result of `MinuiBackendDrm::DisableNonMainCrtcs`: the property
additions accumulated in the atomic request, and whether
`drmModeAtomicCommit` was reached (the early `return`s inside the loop
skip it). -/
structure DisableResult where
  added : List AtomicAdd
  committed : Bool
deriving DecidableEq

/-- The connector loop of `DisableNonMainCrtcs` (graphics_drm.cpp lines
545-559).  `crtc_ids` lists, per connector of the system, the id of the
CRTC `find_crtc_for_connector` resolves for it; `main_id` is
`main_monitor_crtc->crtc_id`; `crtc_props` is the cached `crtc_res`
property list handed to `find_prop_id`.  For a CRTC whose id differs
from the main one the source resolves "ACTIVE" with
`find_prop_id(&crtc_res, crtc, Crtc, crtc->crtc_id, ...)` and returns
from the whole function if the resulting prop_id is 0; otherwise it adds
the property with value 0 targeting `main_monitor_crtc->crtc_id` (not
the iterated CRTC's id).  `none` models the early return. -/
def disableLoop (main_id : Nat) (crtc_props : List PropInfo) :
    List Nat → List AtomicAdd → Option (List AtomicAdd)
  | [], req => some req
  | cid :: rest, req =>
    if cid ≠ main_id then
      if find_prop_id (some crtc_props) main_id cid "ACTIVE" = 0 then none
      else
        disableLoop main_id crtc_props rest
          (req ++ [{ obj_id := main_id,
                     prop_id := find_prop_id (some crtc_props) main_id cid "ACTIVE",
                     value := 0 }])
    else disableLoop main_id crtc_props rest req

/-- Model of `MinuiBackendDrm::DisableNonMainCrtcs` (graphics_drm.cpp
lines 541-565): run the connector loop; on early return nothing is
committed, otherwise the accumulated request is committed. -/
def DisableNonMainCrtcs (crtc_ids : List Nat) (main_id : Nat)
    (crtc_props : List PropInfo) : DisableResult :=
  match disableLoop main_id crtc_props crtc_ids [] with
  | none => { added := [], committed := false }
  | some req => { added := req, committed := true }

/-- Which kernel calls made by `DrmCreateSurface` succeed:
`DRM_IOCTL_MODE_CREATE_DUMB`, `drmModeAddFB2`,
`DRM_IOCTL_MODE_MAP_DUMB`, and `mmap`. -/
structure SurfEnv where
  create_dumb_ok : Bool
  addfb_ok : Bool
  map_dumb_ok : Bool
  mmap_ok : Bool
deriving DecidableEq

/-- The value of the `data` pointer field of a surface: null, the
`MAP_FAILED` sentinel `(void*)-1` (non-null!), or a real mapping. -/
inductive DataPtr
  | null
  | mapFailed
  | mapped
deriving DecidableEq

/-- `data != NULL`, the test `DrmDestroySurface` uses before `munmap`. -/
def DataPtr.nonNull : DataPtr → Bool
  | .null => false
  | _ => true

/-- Model of a `GRSurfaceDrm` as far as resource ownership goes:
dumb-buffer GEM handle (0 = none), framebuffer id (0 = none), and the
`data` pointer state. -/
structure SurfaceModel where
  handle : Nat
  fb_id : Nat
  dataPtr : DataPtr
deriving DecidableEq

/-- Mock kernel call counters: successful resource acquisitions on the
create side and release calls on the destroy side. -/
structure KernelCounts where
  create_dumb_success : Nat
  addfb_success : Nat
  mmap_success : Nat
  gem_close_calls : Nat
  rmfb_calls : Nat
  munmap_calls : Nat
deriving DecidableEq

/-- All-zero counters. -/
def KernelCounts.zero : KernelCounts :=
  { create_dumb_success := 0, addfb_success := 0, mmap_success := 0,
    gem_close_calls := 0, rmfb_calls := 0, munmap_calls := 0 }

/-- Model of `MinuiBackendDrm::DrmDestroySurface` (graphics_drm.cpp
lines 327-352): no-op on a null surface; otherwise `munmap` if `data` is
non-null, `drmModeRmFB` if `fb_id` is nonzero, `DRM_IOCTL_GEM_CLOSE` if
`handle` is nonzero. -/
def DrmDestroySurface (surface : Option SurfaceModel) (c : KernelCounts) : KernelCounts :=
  match surface with
  | none => c
  | some s =>
    let c1 := if s.dataPtr.nonNull then { c with munmap_calls := c.munmap_calls + 1 } else c
    let c2 := if s.fb_id ≠ 0 then { c1 with rmfb_calls := c1.rmfb_calls + 1 } else c1
    if s.handle ≠ 0 then { c2 with gem_close_calls := c2.gem_close_calls + 1 } else c2

/-- Model of `MinuiBackendDrm::DrmCreateSurface` (graphics_drm.cpp lines
371-437).  The surface starts zeroed (`*surface = {}`); each failing
step calls `DrmDestroySurface` on the partially-built surface and
returns null.  On the `mmap` failure path the source has already stored
`MAP_FAILED` into `surface->data`, so the destroy sees a non-null data
pointer.  Kernel-assigned handle and fb ids are nonzero (modelled as 1). -/
def DrmCreateSurface (e : SurfEnv) (c : KernelCounts) :
    Option SurfaceModel × KernelCounts :=
  let s0 : SurfaceModel := { handle := 0, fb_id := 0, dataPtr := .null }
  if e.create_dumb_ok = false then
    (none, DrmDestroySurface (some s0) c)
  else
    let c := { c with create_dumb_success := c.create_dumb_success + 1 }
    let s1 : SurfaceModel := { s0 with handle := 1 }
    if e.addfb_ok = false then
      (none, DrmDestroySurface (some s1) c)
    else
      let c := { c with addfb_success := c.addfb_success + 1 }
      let s2 : SurfaceModel := { s1 with fb_id := 1 }
      if e.map_dumb_ok = false then
        (none, DrmDestroySurface (some s2) c)
      else if e.mmap_ok = false then
        (none, DrmDestroySurface (some { s2 with dataPtr := .mapFailed }) c)
      else
        (some { s2 with dataPtr := .mapped },
         { c with mmap_success := c.mmap_success + 1 })

/-- `create_surface(w,h)` immediately followed by `destroy_surface`,
starting from zero mock-kernel counters; when creation failed the
returned surface is null and the destroy is the source's no-op case. -/
def createThenDestroy (e : SurfEnv) : KernelCounts :=
  let r := DrmCreateSurface e KernelCounts.zero
  DrmDestroySurface r.1 r.2

/-- The device-dependent inputs of the plane/layer-mixer phase of
`MinuiBackendDrm::Init`: whether `drmModeGetPlaneResources` returned a
usable result (non-null with non-null `planes`), its `count_planes`,
whether the CRTC and connector property fetches succeed, and the
connector's "mode_properties" property (`none` when no property of that
name exists; otherwise the blob argument passed on to
`get_topology_lm_number`). -/
structure InitDevice where
  plane_resources_ok : Bool
  count_planes : Nat
  crtc_props_ok : Bool
  conn_props_ok : Bool
  mode_props : Option (Option (List String))
deriving DecidableEq

/-- Model of the plane-count / layer-mixer slice of
`MinuiBackendDrm::Init` (graphics_drm.cpp lines 593-596, 676-721), in
source order: `number_of_lms` is initialised to 2 (line 596); the plane
resources are checked against it (lines 677-679, `count_planes <
number_of_lms` fails Init) BEFORE the connector property loop parses the
topology blob and overwrites `number_of_lms` (lines 710-721).  Returns
the final `number_of_lms` if Init passes this slice, `none` if Init
returns NULL inside it. -/
def InitLmPhase (dev : InitDevice) : Option Nat :=
  let number_of_lms := 2
  if dev.plane_resources_ok = false then none
  else if dev.count_planes < number_of_lms then none
  else if dev.crtc_props_ok = false then none
  else if dev.conn_props_ok = false then none
  else
    match dev.mode_props with
    | none => some number_of_lms
    | some blob => some (get_topology_lm_number blob)

/-! Helper lemmas shared by the claim theorems. -/

lemma get_lm_number_one_or_two (t : String) :
    get_lm_number t = 1 ∨ get_lm_number t = 2 := by
  unfold get_lm_number
  split_ifs <;> simp

lemma topologyScan_foldl_one_or_two (lines : List String) (acc : Nat)
    (h : acc = 1 ∨ acc = 2) :
    lines.foldl topologyScanStep acc = 1 ∨ lines.foldl topologyScanStep acc = 2 := by
  induction lines generalizing acc with
  | nil => simpa using h
  | cons l ls ih =>
    simp only [List.foldl_cons]
    by_cases hs : strHasSub l "topology=" = true
    · exact ih _ (by simpa [topologyScanStep, hs] using get_lm_number_one_or_two (l.drop ("topology=").length))
    · exact ih _ (by simpa [topologyScanStep, hs] using h)

lemma topologyScan_foldl_no_match (lines : List String) (acc : Nat)
    (h : ∀ l ∈ lines, strHasSub l "topology=" = false) :
    lines.foldl topologyScanStep acc = acc := by
  induction lines generalizing acc with
  | nil => rfl
  | cons l ls ih =>
    simp only [List.foldl_cons]
    have hl : strHasSub l "topology=" = false := h l (by simp)
    rw [show topologyScanStep acc l = acc by simp [topologyScanStep, hl]]
    exact ih _ (fun x hx => h x (by simp [hx]))

lemma Blank_alloc_calls_of_ne (b cur : Bool) (e : BlankEnv) (h : b ≠ cur) :
    (Blank b cur e).alloc_calls = 1 := by
  simp only [Blank]
  split_ifs <;> simp_all

lemma Blank_state_eq (b cur : Bool) (e : BlankEnv) (h : b ≠ cur) :
    (Blank b cur e).state =
      (if e.alloc_ok = true ∧ e.construct_ret = 0 ∧ e.commit_ret = 0 then b else cur) := by
  simp only [Blank]
  split_ifs <;> simp_all

/-- Whatever `Init` sets `number_of_lms` to in its layer-mixer phase is
1 or 2: the initial value is 2 and `get_topology_lm_number` only
produces 1 or 2.  (This is why plane counts other than 1 and 2 are
unreachable in `SetupPipeline`.) -/
lemma get_topology_lm_number_one_or_two (b : Option (List String)) :
    get_topology_lm_number b = 1 ∨ get_topology_lm_number b = 2 := by
  rcases b with _ | lines
  · exact Or.inr rfl
  · exact topologyScan_foldl_one_or_two lines 2 (Or.inr rfl)

lemma InitLmPhase_one_or_two (dev : InitDevice) (n : Nat)
    (h : InitLmPhase dev = some n) : n = 1 ∨ n = 2 := by
  unfold InitLmPhase at h
  by_cases h1 : dev.plane_resources_ok = false
  · simp [h1] at h
  · by_cases h2 : dev.count_planes < 2
    · simp [h1, h2] at h
    · by_cases h3 : dev.crtc_props_ok = false
      · simp [h1, h2, h3] at h
      · by_cases h4 : dev.conn_props_ok = false
        · simp [h1, h2, h3, h4] at h
        · simp [h1, h2, h3, h4] at h
          rcases hm : dev.mode_props with _ | blob
          · rw [hm] at h
            simp at h
            omega
          · rw [hm] at h
            simp at h
            rcases get_topology_lm_number_one_or_two blob with k | k <;> omega

/-! Claim theorems. -/

/-- C5: For every topology string, the layer-mixer count returned by the
topology resolution is in the set 1..2 and is a deterministic function
of the string (it is a function): 1 for the single-pipe and pixel-split
topology names, 2 for the dual-pipe/merge topology names, and 2 when the
string is unrecognized or the blob or the "topology=" key is absent. -/
theorem topology_lm_resolution :
    (∀ t, get_lm_number t = 1 ∨ get_lm_number t = 2)
    ∧ (get_lm_number "sde_singlepipe" = 1 ∧ get_lm_number "sde_singlepipe_dsc" = 1
        ∧ get_lm_number "sde_ppsplit" = 1)
    ∧ (get_lm_number "sde_dualpipe" = 2 ∧ get_lm_number "sde_dualpipe_dsc" = 2
        ∧ get_lm_number "sde_dualpipemerge" = 2 ∧ get_lm_number "sde_dualpipemerge_dsc" = 2
        ∧ get_lm_number "sde_dualpipe_dscmerge" = 2)
    ∧ (∀ t, t ≠ "sde_singlepipe" → t ≠ "sde_singlepipe_dsc" → t ≠ "sde_dualpipe" →
        t ≠ "sde_dualpipe_dsc" → t ≠ "sde_dualpipemerge" → t ≠ "sde_dualpipemerge_dsc" →
        t ≠ "sde_dualpipe_dscmerge" → t ≠ "sde_ppsplit" → get_lm_number t = 2)
    ∧ get_topology_lm_number none = 2
    ∧ (∀ lines, (∀ l ∈ lines, strHasSub l "topology=" = false) →
        get_topology_lm_number (some lines) = 2)
    ∧ (∀ blob, get_topology_lm_number blob = 1 ∨ get_topology_lm_number blob = 2) := by
  refine ⟨get_lm_number_one_or_two, ⟨by decide, by decide, by decide⟩,
    ⟨by decide, by decide, by decide, by decide, by decide⟩, ?_, rfl, ?_, ?_⟩
  · intro t h1 h2 h3 h4 h5 h6 h7 h8
    simp [get_lm_number, h1, h2, h3, h4, h5, h6, h7, h8]
  · intro lines h
    exact topologyScan_foldl_no_match lines 2 h
  · exact get_topology_lm_number_one_or_two

/-- Witness for C5: the hypothesis-bearing conjuncts of
`topology_lm_resolution` applied at concrete inputs. -/
theorem topology_lm_resolution_witness :
    get_lm_number "sde_unknown_topology" = 2
    ∧ get_topology_lm_number (some ["foo", "bar"]) = 2 := by
  obtain ⟨-, -, -, h4, -, h6, -⟩ := topology_lm_resolution
  refine ⟨h4 _ ?_ ?_ ?_ ?_ ?_ ?_ ?_ ?_, h6 ["foo", "bar"] ?_⟩ <;> decide

/-- C9: For every CRTC or Connector property lookup through the
`find_prop_id` macro, if the queried object id differs from the main
monitor's corresponding object id, the lookup yields the sentinel 0 even
when the object's cached property list contains a property of the
requested name. -/
theorem find_prop_id_non_main_sentinel (props : List PropInfo)
    (main_obj_id obj_id : Nat) (prop_name : String) (p : PropInfo)
    (hne : main_obj_id ≠ obj_id) (hmem : p ∈ props) (hname : p.name = prop_name) :
    find_prop_id (some props) main_obj_id obj_id prop_name = 0 := by
  simp [find_prop_id, hne]

/-- Witness for C9: a CRTC with id 9, different from the main monitor's
CRTC id 7, whose cached property list does contain "ACTIVE". -/
theorem find_prop_id_non_main_sentinel_witness :
    find_prop_id (some [{ name := "ACTIVE", prop_id := 21 }]) 7 9 "ACTIVE" = 0 :=
  find_prop_id_non_main_sentinel [{ name := "ACTIVE", prop_id := 21 }] 7 9 "ACTIVE"
    { name := "ACTIVE", prop_id := 21 } (by decide) (by decide) rfl

/-- C1: evaluating `DisableNonMainCrtcs` at the failing input: a system
whose connectors resolve to CRTC ids 7 and 9 with main CRTC id 7 and an
"ACTIVE" property cached with id 21.  The claim requires CRTC 9 to be
issued an ACTIVE=0 property set targeting id 9 in a committed atomic
request; instead the function adds no property at all and returns before
ever calling the commit, because `find_prop_id` yields the sentinel 0
for the non-main id 9. -/
theorem disable_non_main_crtcs_failing_input :
    (DisableNonMainCrtcs [7, 9] 7 [{ name := "ACTIVE", prop_id := 21 }]).added = []
    ∧ (DisableNonMainCrtcs [7, 9] 7 [{ name := "ACTIVE", prop_id := 21 }]).committed = false := by
  decide

/-- C10: `Init` fails (returns null) whenever the selected device
reports fewer than 2 planes, regardless of the panel's actual topology:
the plane-count check compares `count_planes` against the default
layer-mixer count of 2, which is still in effect because the topology
blob is parsed only after that check. -/
theorem init_fails_below_two_planes (dev : InitDevice)
    (h : dev.count_planes < 2) : InitLmPhase dev = none := by
  unfold InitLmPhase
  by_cases h1 : dev.plane_resources_ok = false
  · simp [h1]
  · simp [h1, h]

/-- Witness for C10: a device exposing a single plane whose topology
blob names a single-pipe topology (layer-mixer count 1, so one plane
would suffice) still fails Init's plane-count check. -/
theorem init_fails_below_two_planes_witness :
    InitLmPhase
      { plane_resources_ok := true, count_planes := 1, crtc_props_ok := true,
        conn_props_ok := true,
        mode_props := some (some ["topology=sde_singlepipe"]) } = none :=
  init_fails_below_two_planes _ (by decide)

/-- C2 counterexample: at CRTC mode width 5 with 2 active planes the
claimed partition fails: both plane rectangles have width 5/2 = 2
(integer division), so pixel column 4 (which is inside the mode width,
4 less than 5) is covered by no plane rectangle -- the rectangles do not
cover all columns below W. -/
theorem plane_partition_gap_at_odd_width :
    4 < 5 ∧ ¬ ∃ r ∈ SetupPipelineRects 5 3 2, coversX r 4 := by
  decide

/-- C2 (amended): for every CRTC mode of width W and active plane count
N in 1..2 (the only counts the backend produces, see
`InitLmPhase_one_or_two`), the pipeline-setup request assigns plane i a
source and destination X-offset of i * (W/N) and a width of W/N, with
integer division; when N divides W the N plane rectangles cover the
columns 0..W-1 with no gaps and no overlaps. -/
theorem plane_partition_amended (W H N : Nat) (hN : N = 1 ∨ N = 2) :
    (∀ i, i < N → AtomicPopulatePlane W H N i =
      { src_x := i * (W / N), src_y := 0, src_w := W / N, src_h := H,
        crtc_x := i * (W / N), crtc_y := 0, crtc_w := W / N, crtc_h := H })
    ∧ (W % N = 0 →
        (∀ x, x < W ↔ ∃ i, i < N ∧ coversX (AtomicPopulatePlane W H N i) x)
        ∧ (∀ i j x, i < N → j < N → i ≠ j →
            coversX (AtomicPopulatePlane W H N i) x →
            ¬ coversX (AtomicPopulatePlane W H N j) x)) := by
  rcases hN with rfl | rfl
  · refine ⟨?_, ?_⟩
    · intro i hi
      interval_cases i
      simp [AtomicPopulatePlane, Left]
    · intro _
      refine ⟨?_, ?_⟩
      · intro x
        constructor
        · intro hx
          exact ⟨0, by omega, by simp [AtomicPopulatePlane, Left, coversX]; omega⟩
        · rintro ⟨i, hi, hc⟩
          interval_cases i
          simp [AtomicPopulatePlane, Left, coversX] at hc
          omega
      · intro i j x hi hj hij
        interval_cases i <;> interval_cases j <;> omega
  · refine ⟨?_, ?_⟩
    · intro i hi
      interval_cases i <;> simp [AtomicPopulatePlane, Left]
    · intro hW
      refine ⟨?_, ?_⟩
      · intro x
        constructor
        · intro hx
          by_cases hx2 : x < W / 2
          · exact ⟨0, by omega, by simp [AtomicPopulatePlane, Left, coversX]; omega⟩
          · exact ⟨1, by omega, by simp [AtomicPopulatePlane, Left, coversX]; omega⟩
        · rintro ⟨i, hi, hc⟩
          interval_cases i <;> simp [AtomicPopulatePlane, Left, coversX] at hc <;> omega
      · intro i j x hi hj hij hci
        interval_cases i <;> interval_cases j <;>
          simp [AtomicPopulatePlane, Left, coversX] at hci ⊢ <;> omega

/-- Witness for C2 (amended): width 4, height 3, 2 planes: plane 1 is
assigned offset 1 * (4/2) = 2 and width 2, and column 3 is covered. -/
theorem plane_partition_amended_witness :
    AtomicPopulatePlane 4 3 2 1 =
      { src_x := 2, src_y := 0, src_w := 2, src_h := 3,
        crtc_x := 2, crtc_y := 0, crtc_w := 2, crtc_h := 3 }
    ∧ (3 < 4 ↔ ∃ i, i < 2 ∧ coversX (AtomicPopulatePlane 4 3 2 i) 3) := by
  constructor
  · have h := (plane_partition_amended 4 3 2 (Or.inr rfl)).1 1 (by decide)
    simpa using h
  · exact ((plane_partition_amended 4 3 2 (Or.inr rfl)).2 (by decide)).1 3

/-- C3: For every call `Blank b` with `b` different from the tracked
blank-state, if the atomic commit fails (returns nonzero) the tracked
blank-state is left unchanged, so a subsequent `Blank b` call gets past
the redundancy guard and attempts the transition again (it allocates a
request); and the tracked blank-state becomes `b` exactly when the
request was allocated, constructed, and committed successfully. -/
theorem blank_state_changes_only_on_successful_commit (b cur : Bool)
    (e : BlankEnv) (h : b ≠ cur) :
    (e.commit_ret ≠ 0 →
      (Blank b cur e).state = cur
      ∧ ∀ e2, (Blank b (Blank b cur e).state e2).alloc_calls = 1)
    ∧ ((Blank b cur e).state = b ↔
        e.alloc_ok = true ∧ e.construct_ret = 0 ∧ e.commit_ret = 0) := by
  constructor
  · intro hcr
    have h1 : (Blank b cur e).state = cur := by
      rw [Blank_state_eq b cur e h]
      simp [hcr]
    refine ⟨h1, fun e2 => ?_⟩
    rw [h1]
    exact Blank_alloc_calls_of_ne b cur e2 h
  · rw [Blank_state_eq b cur e h]
    split_ifs with hc
    · simp [hc]
    · exact iff_of_false (fun hh => h hh.symm) hc

/-- Witness for C3: blanking from the active state with a failing commit
(rc = -22) leaves the tracked state active. -/
theorem blank_state_changes_only_on_successful_commit_witness :
    (Blank true false { alloc_ok := true, construct_ret := 0, commit_ret := -22 }).state
      = false := by
  have h := blank_state_changes_only_on_successful_commit true false
    { alloc_ok := true, construct_ret := 0, commit_ret := -22 } (by decide)
  exact (h.1 (by decide)).1

/-- C4: calling `Blank x` when the tracked blank-state already equals
`x` is a no-op: zero atomic requests are allocated or committed, no
failure is logged and no state changes; consequently a second `Blank x`
is the same no-op, so `Blank x` twice equals a single `Blank x`. -/
theorem blank_redundant_noop (x cur : Bool) (e1 e2 : BlankEnv) (h : cur = x) :
    Blank x cur e1 = { state := cur, alloc_calls := 0, commit_calls := 0, fail_logs := 0 }
    ∧ Blank x (Blank x cur e1).state e2 = Blank x cur e1 := by
  subst h
  simp [Blank]

/-- Witness for C4: `Blank true` when already blanked does nothing. -/
theorem blank_redundant_noop_witness :
    Blank true true { alloc_ok := true, construct_ret := 0, commit_ret := 0 } =
      { state := true, alloc_calls := 0, commit_calls := 0, fail_logs := 0 } :=
  (blank_redundant_noop true true
    { alloc_ok := true, construct_ret := 0, commit_ret := 0 }
    { alloc_ok := true, construct_ret := 0, commit_ret := 0 } rfl).1

/-- C6: starting from any reachable `current_buffer` (0 after Init, and
the toggle keeps it in 0..1), `Flip` returns one of the two Init-created
buffer indices, never the index it just committed for display; two
consecutive `Flip`s return different indices and flipping twice returns
the original index. -/
theorem flip_alternates (cb : Nat) (h : cb ≤ 1) :
    (Flip cb).returned ≤ 1
    ∧ (Flip cb).returned ≠ cb
    ∧ (Flip cb).returned ≠ (Flip cb).committed
    ∧ (Flip (Flip cb).returned).returned = cb := by
  interval_cases cb <;> decide

/-- Witness for C6: from the post-Init state (`current_buffer = 0`) Flip
returns buffer 1 and a second Flip returns buffer 0 again. -/
theorem flip_alternates_witness :
    (Flip 0).returned ≠ 0 ∧ (Flip (Flip 0).returned).returned = 0 :=
  ⟨(flip_alternates 0 (by decide)).2.1, (flip_alternates 0 (by decide)).2.2.2⟩

/-- C7 counterexample: when `mmap` is the failing step, `data` holds the
non-null `MAP_FAILED` sentinel, so the cleanup issues one `munmap` call
although zero mappings were ever created: the mock kernel's create call
count (successful mmaps, 0) differs from its destroy call count
(munmaps, 1) -- no leak, but the claimed count equality fails. -/
theorem surface_mmap_failure_count_mismatch :
    (createThenDestroy
        { create_dumb_ok := true, addfb_ok := true,
          map_dumb_ok := true, mmap_ok := false }).munmap_calls = 1
    ∧ (createThenDestroy
        { create_dumb_ok := true, addfb_ok := true,
          map_dumb_ok := true, mmap_ok := false }).mmap_success = 0 := by
  decide

/-- C7 (amended): for every pattern of kernel-step failures,
`create_surface` followed immediately by `destroy_surface` releases
everything acquired: GEM-close calls equal successful dumb-buffer
creations, framebuffer removals equal successful framebuffer creations,
and every successful mapping is unmapped; the only count imbalance is
the one extra `munmap` issued on the `MAP_FAILED` sentinel when `mmap`
itself was the failing step.  When creation fails the counts are already
balanced before `create_surface` returns null. -/
theorem surface_no_leak (e : SurfEnv) :
    (createThenDestroy e).gem_close_calls = (createThenDestroy e).create_dumb_success
    ∧ (createThenDestroy e).rmfb_calls = (createThenDestroy e).addfb_success
    ∧ (createThenDestroy e).mmap_success ≤ (createThenDestroy e).munmap_calls
    ∧ (createThenDestroy e).munmap_calls =
        (createThenDestroy e).mmap_success +
          (if e.create_dumb_ok ∧ e.addfb_ok ∧ e.map_dumb_ok ∧ e.mmap_ok = false
           then 1 else 0)
    ∧ ((DrmCreateSurface e KernelCounts.zero).1 = none →
        (DrmCreateSurface e KernelCounts.zero).2.gem_close_calls
          = (DrmCreateSurface e KernelCounts.zero).2.create_dumb_success
        ∧ (DrmCreateSurface e KernelCounts.zero).2.rmfb_calls
          = (DrmCreateSurface e KernelCounts.zero).2.addfb_success) := by
  rcases e with ⟨a, b, c, d⟩
  cases a <;> cases b <;> cases c <;> cases d <;> decide

/-- Witness for C7 (amended): when the dumb-buffer creation itself
fails, nothing was acquired and nothing is released, both overall and
already at the point `create_surface` returns null. -/
theorem surface_no_leak_witness :
    (createThenDestroy
        { create_dumb_ok := false, addfb_ok := true,
          map_dumb_ok := true, mmap_ok := true }).gem_close_calls =
      (createThenDestroy
        { create_dumb_ok := false, addfb_ok := true,
          map_dumb_ok := true, mmap_ok := true }).create_dumb_success
    ∧ (DrmCreateSurface
        { create_dumb_ok := false, addfb_ok := true,
          map_dumb_ok := true, mmap_ok := true } KernelCounts.zero).2.gem_close_calls =
      (DrmCreateSurface
        { create_dumb_ok := false, addfb_ok := true,
          map_dumb_ok := true, mmap_ok := true } KernelCounts.zero).2.create_dumb_success := by
  refine ⟨(surface_no_leak
      { create_dumb_ok := false, addfb_ok := true,
        map_dumb_ok := true, mmap_ok := true }).1, ?_⟩
  exact ((surface_no_leak
      { create_dumb_ok := false, addfb_ok := true,
        map_dumb_ok := true, mmap_ok := true }).2.2.2.2 (by decide)).1

/-- C8: evaluating `Blank` at the two commit outcomes: the source prints
"Atomic Commit failed, rc = %d" inside `if (!ret)`, i.e. exactly when
the commit SUCCEEDS (rc = 0), and prints nothing when the commit fails
(rc = -22) -- the inverse of the claimed behaviour. -/
theorem blank_failure_log_inverted :
    (Blank true false { alloc_ok := true, construct_ret := 0, commit_ret := 0 }).fail_logs = 1
    ∧ (Blank true false { alloc_ok := true, construct_ret := 0, commit_ret := -22 }).fail_logs
        = 0 := by
  decide

end GraphicsDrm
